import Mathlib

/-!
Verification development for the whisper_backend repository
(src/whisper_backend/model.py).  The per-task audio pipeline of
`WhisperBackend.predict` is shallowly embedded: every interaction with
the outside world (the framework resolver `get_local_path`, the OpenAI
transcription call, librosa beat tracking, mutagen tag reading) is an
input recorded in a per-task environment, and the pipeline itself is a
pure function of the task and that environment, translated line by line
from the source.  Python floats are modelled as rationals; a Python
exception raised by an external call is modelled as the `exn` variant
carrying the exception's rendered message.
-/

namespace Whisper

/-- Outcome of a Python call that may raise: either a value or an
exception carrying its string rendering (`str(e)` as used by the
source's f-strings). -/
inductive PyResult (α : Type) where
  | ok (a : α)
  | exn (msg : String)
deriving DecidableEq, Repr

/-- The tagged value of a Label Studio result item: `{"text": [...]}`,
`{"choices": [...]}` or `{"number": ...}` in the source. -/
inductive RIValue where
  | text (ts : List String)
  | choices (cs : List String)
  | number (n : ℚ)
deriving DecidableEq, Repr

/-- One entry of a prediction's `result` list, as built in
model.py lines 162-209: a value plus `from_name`, `to_name`, `type`. -/
structure ResultItem where
  value : RIValue
  from_name : String
  to_name : String
  type : String
deriving DecidableEq, Repr

/-- The prediction dict built at model.py line 162: a `result` list and
a top-level `score`. -/
structure Prediction where
  result : List ResultItem
  score : ℚ
deriving DecidableEq, Repr

/-- The `data` mapping of a task; only the `audio` key is read by the
source (line 81), so the mapping is modelled by that optional key. -/
structure TaskData where
  audio : Option String
deriving DecidableEq, Repr

/-- An input task: a dict that may or may not carry a `data` mapping
(the source checks `'data' in task` at line 81). -/
structure Task where
  data : Option TaskData
deriving DecidableEq, Repr

/-- The tag view returned by `MutagenFile(..., easy=True)` when it is
not `None`: first value of each of the four tags read at lines 146-149
(or `None`), plus the optional `info.length` stream duration. -/
structure Tags where
  title : Option String
  artist : Option String
  album : Option String
  date : Option String
  length : Option ℚ
deriving DecidableEq, Repr

/-- Everything the outside world contributes to one task's pipeline:
the resolver outcome, the provider transcription outcome (covering the
`open` and the network call inside the try at lines 111-119), whether
librosa / mutagen are importable, and the outcomes of their calls.
`mutagenRead` is `ok none` when `MutagenFile` returns `None`
(line 145); a raise anywhere in a stage's try block is the `exn`
variant.  The environment is fixed per task, which models the
single-threaded, deterministic run of the stages. -/
structure TaskEnv where
  resolve : PyResult String
  transcribe : PyResult String
  librosaAvailable : Bool
  beatTrack : PyResult ℚ
  mutagenAvailable : Bool
  mutagenRead : PyResult (Option Tags)
deriving DecidableEq, Repr

/-- model.py lines 32-37: fixed tempo thresholds. -/
def bpm_category (bpm : ℚ) : String :=
  if bpm < 90 then "slow"
  else if bpm < 120 then "medium"
  else "fast"

/-- Python `round(x, 2)` on the modelled rationals.  Mathlib `round`
rounds half away from the floor where Python uses banker's rounding;
the difference matters only on exact half-hundredths, which no claim
touches. -/
def round2 (q : ℚ) : ℚ := ((round (q * 100) : ℤ) : ℚ) / 100

/-- Rendering stand-in for Python `str()` on a modelled float
(`str(bpm)` at line 179).  The exact digit string is not load-bearing
for any claim; only that the bpm value is rendered into a text item. -/
def pyFloatStr (q : ℚ) : String := toString q

/-- Lines 102-122: transcript text and score.  If `self.client is None`
the fixed placeholder is used and no call is made (the environment's
`transcribe` field is ignored); otherwise a successful call yields the
text with the stubbed 0.99 score, and a raise is caught and embedded in
the text with the score left at 0.0. -/
def transcriptStage (clientConfigured : Bool) (e : TaskEnv) : String × ℚ :=
  if clientConfigured then
    match e.transcribe with
    | .ok t => (t, 99/100)
    | .exn m => ("[Transcription error: " ++ m ++ "]", 0)
  else
    ("[OpenAI not configured — transcription unavailable]", 0)

/-- Lines 127-137: BPM and tempo category, both set on a successful
beat track (rounded to 2 decimals), both left `None` when librosa is
missing or the analysis raises. -/
def tempoStage (e : TaskEnv) : Option (ℚ × String) :=
  if e.librosaAvailable then
    match e.beatTrack with
    | .ok t =>
        let b := round2 t
        some (b, bpm_category b)
    | .exn _ => none
  else none

/-- The `meta_fields` dict after lines 142-157.  Python dicts preserve
insertion order, so the emission loop at line 193 walks the fields in
the order title, artist, album, year, duration; `None` values are
skipped there, so the dict is modelled by five independent options.
The mutagen read is modelled atomically: either it raises (empty
fields) or it yields the whole tag view. -/
structure MetaFields where
  title : Option String
  artist : Option String
  album : Option String
  year : Option String
  duration : Option ℚ
deriving DecidableEq, Repr

/-- The empty `meta_fields` dict. -/
def MetaFields.empty : MetaFields := ⟨none, none, none, none, none⟩

/-- Lines 142-157: metadata extraction; empty when mutagen is missing,
when `MutagenFile` returns `None`, or when the read raises. -/
def metadataStage (e : TaskEnv) : MetaFields :=
  if e.mutagenAvailable then
    match e.mutagenRead with
    | .ok (some tags) =>
        { title := tags.title, artist := tags.artist, album := tags.album,
          year := tags.date, duration := tags.length.map round2 }
    | .ok none => .empty
    | .exn _ => .empty
  else .empty

/-- The transcription result item, always built first (lines 162-174). -/
def transcriptItem (text : String) : ResultItem :=
  { value := .text [text], from_name := "transcription",
    to_name := "audio", type := "textarea" }

/-- Lines 176-190: the BPM text item then the tempo-category choices
item, appended exactly when the tempo stage produced values. -/
def tempoItems : Option (ℚ × String) → List ResultItem
  | none => []
  | some (b, c) =>
      [{ value := .text [pyFloatStr b], from_name := "bpm",
         to_name := "audio", type := "textarea" },
       { value := .choices [c], from_name := "tempo_category",
         to_name := "audio", type := "choices" }]

/-- One textarea metadata item for a present field (lines 203-209);
`str(value)` on an already-string tag value is the identity. -/
def textMetaItem (name : String) : Option String → List ResultItem
  | none => []
  | some v =>
      [{ value := .text [v], from_name := name,
         to_name := "audio", type := "textarea" }]

/-- The numeric duration item (lines 196-202). -/
def durationItem : Option ℚ → List ResultItem
  | none => []
  | some d =>
      [{ value := .number d, from_name := "duration",
         to_name := "audio", type := "number" }]

/-- Lines 192-209: metadata items in dict insertion order, skipping
absent fields. -/
def metaItems (m : MetaFields) : List ResultItem :=
  textMetaItem "title" m.title ++ textMetaItem "artist" m.artist ++
  textMetaItem "album" m.album ++ textMetaItem "year" m.year ++
  durationItem m.duration

/-- Lines 162-210: assemble the prediction from the three stage
outputs; the top-level score is the transcription stage's score. -/
def assemble (tr : String × ℚ) (tempo : Option (ℚ × String))
    (meta : MetaFields) : Prediction :=
  { result := transcriptItem tr.1 :: (tempoItems tempo ++ metaItems meta),
    score := tr.2 }

/-- The body of the outer try (lines 88-211) for one task with an audio
URL.  Each stage's internal try/except means its failure is absorbed;
the only raise that reaches the outer handler is one from
`get_local_path`, modelled by the `exn` variant of `resolve`. -/
def runTask (clientConfigured : Bool) (e : TaskEnv) :
    Except String Prediction :=
  match e.resolve with
  | .exn m => .error m
  | .ok _path =>
      .ok (assemble (transcriptStage clientConfigured e) (tempoStage e)
        (metadataStage e))

/-- Lines 80-82: `task['data']['audio']` when both keys are present. -/
def audioUrl (t : Task) : Option String :=
  match t.data with
  | some d => d.audio
  | none => none

/-- Lines 84-86: `if not audio_url: continue` — the URL is used only if
present and truthy; the only falsy string is the empty string. -/
def truthyAudioUrl (t : Task) : Option String :=
  match audioUrl t with
  | some u => if u = "" then none else some u
  | none => none

/-- One iteration of the task loop: `none` when the task is skipped
(missing/falsy audio at line 86, or an exception caught at line 213),
otherwise the prediction appended at line 210. -/
def processTask (clientConfigured : Bool) (te : Task × TaskEnv) :
    Option Prediction :=
  match truthyAudioUrl te.1 with
  | none => none
  | some _ =>
      match runTask clientConfigured te.2 with
      | .error _ => none
      | .ok p => some p

/-- Lines 72-217: the whole `predict` loop, accumulating predictions in
task order and continuing past skipped tasks. -/
def predict (clientConfigured : Bool) :
    List (Task × TaskEnv) → List Prediction
  | [] => []
  | te :: rest =>
      match processTask clientConfigured te with
      | none => predict clientConfigured rest
      | some p => p :: predict clientConfigured rest

/-- Filesystem-handle events a run of `predict` performs on local audio
files, read off the source: `get_local_path` (line 96) yields the local
path for each processed task, and the function body contains no file
deletion of any kind (no `os.remove`/`unlink`/temp-file context
manager), so the trace can only ever contain `resolved` events. -/
inductive FsEvent where
  | resolved (path : String)
  | deleted (path : String)
deriving DecidableEq, Repr

/-- The filesystem events of one task iteration: a skipped task touches
nothing, a processed task resolves its audio to a local path; nothing
in lines 88-215 deletes that file afterwards, on success or failure. -/
def taskEvents (te : Task × TaskEnv) : List FsEvent :=
  match truthyAudioUrl te.1 with
  | none => []
  | some _ =>
      match te.2.resolve with
      | .ok p => [.resolved p]
      | .exn _ => []

/-- The filesystem events of a whole `predict` run, in task order. -/
def predictEvents (l : List (Task × TaskEnv)) : List FsEvent :=
  (l.map taskEvents).flatten

/-- A concrete well-formed task referencing an audio URL. -/
def exTask : Task := { data := some { audio := some "http://x/a.wav" } }

/-- A concrete environment for a degraded-mode run: resolution succeeds
and neither librosa nor mutagen is importable; the provider fields are
irrelevant because no client is configured. -/
def exEnvDegraded : TaskEnv :=
  { resolve := .ok "/tmp/a.wav", transcribe := .exn "unused",
    librosaAvailable := false, beatTrack := .exn "unused",
    mutagenAvailable := false, mutagenRead := .exn "unused" }

/-- A concrete tag view: a title and a duration, nothing else. -/
def exTags : Tags :=
  { title := some "Song", artist := none, album := none, date := none,
    length := some 12 }

/-- A concrete environment where every stage succeeds: transcription
returns a text, beat tracking returns 95 BPM, and mutagen yields a
title tag and a duration. -/
def exEnvFull : TaskEnv :=
  { resolve := .ok "/tmp/b.wav", transcribe := .ok "hello world",
    librosaAvailable := true, beatTrack := .ok 95,
    mutagenAvailable := true,
    mutagenRead := .ok (some exTags) }

/-- The prediction `predict` produces for `exTask` under `exEnvFull`
with a configured client. -/
def exPredFull : Prediction :=
  { result :=
      [{ value := .text ["hello world"], from_name := "transcription",
         to_name := "audio", type := "textarea" },
       { value := .text [pyFloatStr 95], from_name := "bpm",
         to_name := "audio", type := "textarea" },
       { value := .choices ["medium"], from_name := "tempo_category",
         to_name := "audio", type := "choices" },
       { value := .text ["Song"], from_name := "title",
         to_name := "audio", type := "textarea" },
       { value := .number 12, from_name := "duration",
         to_name := "audio", type := "number" }],
    score := 99/100 }

/-- A concrete environment whose resolver raises, so the outer handler
catches and the task is skipped. -/
def exEnvResolveFail : TaskEnv :=
  { resolve := .exn "404 not found", transcribe := .ok "unused",
    librosaAvailable := false, beatTrack := .exn "unused",
    mutagenAvailable := false, mutagenRead := .exn "unused" }

/-- A concrete environment where the provider call raises but tempo
analysis succeeds with 130 BPM. -/
def exEnvProviderFail : TaskEnv :=
  { resolve := .ok "/tmp/c.wav", transcribe := .exn "timeout",
    librosaAvailable := true, beatTrack := .ok 130,
    mutagenAvailable := false, mutagenRead := .exn "unused" }

/-- The prediction produced for `exTask` under `exEnvProviderFail` with
a configured client. -/
def exPredProviderFail : Prediction :=
  { result :=
      [{ value := .text ["[Transcription error: timeout]"],
         from_name := "transcription", to_name := "audio",
         type := "textarea" },
       { value := .text [pyFloatStr 130], from_name := "bpm",
         to_name := "audio", type := "textarea" },
       { value := .choices ["fast"], from_name := "tempo_category",
         to_name := "audio", type := "choices" }],
    score := 0 }

/-- A concrete task whose data mapping lacks the audio field. -/
def exTaskNoAudio : Task := { data := some ⟨none⟩ }

/-- A concrete task whose audio field holds the empty (falsy) string. -/
def exTaskEmptyAudio : Task := { data := some { audio := some "" } }

/-- C2: for every BPM value v ≥ 0, `bpm_category` returns exactly one
of slow/medium/fast, with v < 90 ↦ slow, 90 ≤ v < 120 ↦ medium,
v ≥ 120 ↦ fast; the boundaries 90 and 120 map to medium and fast. -/
theorem bpm_category_spec (v : ℚ) (h : 0 ≤ v) :
    (bpm_category v = "slow" ∨ bpm_category v = "medium" ∨
      bpm_category v = "fast") ∧
    (v < 90 → bpm_category v = "slow") ∧
    (90 ≤ v → v < 120 → bpm_category v = "medium") ∧
    (120 ≤ v → bpm_category v = "fast") ∧
    bpm_category 90 = "medium" ∧ bpm_category 120 = "fast" := by
  unfold bpm_category
  refine ⟨?_, ?_, ?_, ?_, by norm_num, by norm_num⟩ <;>
    split_ifs <;> simp_all <;> linarith

/-- Witness for C2: the boundary inputs evaluated concretely. -/
theorem bpm_category_spec_witness :
    (0:ℚ) ≤ 90 ∧ bpm_category 90 = "medium" :=
  ⟨by norm_num, ((bpm_category_spec 90 (by norm_num)).2.2.1 (by norm_num)
    (by norm_num))⟩

/-- Every prediction in the output of `predict` arises from one task of
the input list via `processTask`. -/
theorem mem_predict {c : Bool} {l : List (Task × TaskEnv)} {p : Prediction}
    (h : p ∈ predict c l) : ∃ te ∈ l, processTask c te = some p := by
  induction l with
  | nil => simp [predict] at h
  | cons te rest ih =>
      rw [predict] at h
      rcases h2 : processTask c te with _ | q <;> rw [h2] at h
      · obtain ⟨te2, hte2, hq⟩ := ih h
        exact ⟨te2, List.mem_cons_of_mem _ hte2, hq⟩
      · rcases List.mem_cons.mp h with rfl | hmem
        · exact ⟨te, List.mem_cons_self _ _, h2⟩
        · obtain ⟨te2, hte2, hq⟩ := ih hmem
          exact ⟨te2, List.mem_cons_of_mem _ hte2, hq⟩

/-- A prediction emitted for one task is the assembly of the three
stage outputs on that task's environment. -/
theorem processTask_eq_some {c : Bool} {te : Task × TaskEnv}
    {p : Prediction} (h : processTask c te = some p) :
    p = assemble (transcriptStage c te.2) (tempoStage te.2)
      (metadataStage te.2) := by
  rcases h1 : truthyAudioUrl te.1 with _ | u
  · simp [processTask, h1] at h
  · rcases h2 : te.2.resolve with a | m
    · simp [processTask, runTask, h1, h2] at h
      exact h.symm
    · simp [processTask, runTask, h1, h2] at h

/-- A task whose iteration produces no prediction can be removed from
the batch without changing the output. -/
theorem predict_erase_skipped {c : Bool} {te : Task × TaskEnv}
    (hskip : processTask c te = none) (l₁ l₂ : List (Task × TaskEnv)) :
    predict c (l₁ ++ te :: l₂) = predict c (l₁ ++ l₂) := by
  induction l₁ with
  | nil => simp [predict, hskip]
  | cons te2 rest ih =>
      simp only [List.cons_append]
      rw [predict, predict]
      rcases h2 : processTask c te2 with _ | q <;> simp [ih]

/-- Shape of the assembled prediction, for any stage outputs: the
transcript item leads, the field names form a subsequence of the fixed
order, BPM and tempo category appear together, and every item targets
"audio" with its type determined by its field name. -/
theorem assemble_shape (tr : String × ℚ) (tempo : Option (ℚ × String))
    (meta : MetaFields) :
    (∃ ts, (assemble tr tempo meta).result.head? =
      some { value := .text ts, from_name := "transcription",
             to_name := "audio", type := "textarea" }) ∧
    List.Sublist ((assemble tr tempo meta).result.map ResultItem.from_name)
      ["transcription", "bpm", "tempo_category", "title", "artist",
       "album", "year", "duration"] ∧
    ("bpm" ∈ (assemble tr tempo meta).result.map ResultItem.from_name ↔
      "tempo_category" ∈
        (assemble tr tempo meta).result.map ResultItem.from_name) ∧
    ∀ it ∈ (assemble tr tempo meta).result, it.to_name = "audio" ∧
      it.type = (if it.from_name = "tempo_category" then "choices"
        else if it.from_name = "duration" then "number"
        else "textarea") := by
  obtain ⟨mt, ma, mal, my, md⟩ := meta
  refine ⟨⟨[tr.1], rfl⟩, ?_, ?_, ?_⟩ <;>
  rcases tempo with _ | ⟨b, cat⟩ <;>
  rcases mt with _ | x1 <;> rcases ma with _ | x2 <;>
  rcases mal with _ | x3 <;> rcases my with _ | x4 <;>
  rcases md with _ | x5 <;>
  simp [assemble, tempoItems, metaItems, textMetaItem, durationItem,
    transcriptItem] <;>
  decide

/-- C3: every emitted Prediction's result sequence is deterministically
ordered — the transcription item first, then (when present) the BPM
text item followed by the tempo-category choices item, then metadata
items in the fixed order title, artist, album, year, duration, absent
fields skipped entirely; every item targets "audio", the tempo category
has type "choices", duration has type "number", and everything else
(including BPM) has type "textarea". -/
theorem predict_result_order (c : Bool) (l : List (Task × TaskEnv))
    (p : Prediction) (hp : p ∈ predict c l) :
    (∃ ts, p.result.head? =
      some ⟨RIValue.text ts, "transcription", "audio", "textarea"⟩) ∧
    List.Sublist (p.result.map ResultItem.from_name)
      ["transcription", "bpm", "tempo_category", "title", "artist",
       "album", "year", "duration"] ∧
    ("bpm" ∈ p.result.map ResultItem.from_name ↔
      "tempo_category" ∈ p.result.map ResultItem.from_name) ∧
    ∀ it ∈ p.result, it.to_name = "audio" ∧
      it.type = (if it.from_name = "tempo_category" then "choices"
        else if it.from_name = "duration" then "number"
        else "textarea") := by
  obtain ⟨te, _, hte⟩ := mem_predict hp
  rw [processTask_eq_some hte]
  exact assemble_shape _ _ _

/-- Rounding to two decimals fixes integers. -/
theorem round2_intCast (n : ℤ) : round2 (n : ℚ) = n := by
  unfold round2
  rw [show ((n : ℚ) * 100) = ((n * 100 : ℤ) : ℚ) by push_cast; ring,
    round_intCast]
  push_cast
  field_simp

/-- Concrete evaluation: the full-stage environment yields exactly
`exPredFull`. -/
theorem runTask_exEnvFull_eval :
    runTask true exEnvFull = Except.ok exPredFull := by
  have h95 : round2 95 = 95 := by
    have := round2_intCast 95
    norm_num at this
    simpa using this
  have h12 : round2 12 = 12 := by
    have := round2_intCast 12
    norm_num at this
    simpa using this
  have hcat : bpm_category 95 = "medium" := by norm_num [bpm_category]
  simp [runTask, exEnvFull, exPredFull, assemble, transcriptStage,
    tempoStage, metadataStage, exTags, tempoItems, metaItems,
    textMetaItem, durationItem, transcriptItem, h95, h12, hcat]

/-- Concrete evaluation: the full-stage run's prediction is in the
output of `predict`. -/
theorem mem_predict_exEnvFull :
    exPredFull ∈ predict true [(exTask, exEnvFull)] := by
  simp [predict, processTask, truthyAudioUrl, audioUrl, exTask,
    runTask_exEnvFull_eval]

/-- Witness for C3: a concrete full-stage run, whose single prediction
satisfies the ordering invariant. -/
theorem predict_result_order_witness :
    exPredFull ∈ predict true [(exTask, exEnvFull)] ∧
    List.Sublist (exPredFull.result.map ResultItem.from_name)
      ["transcription", "bpm", "tempo_category", "title", "artist",
       "album", "year", "duration"] := by
  have hm : exPredFull ∈ predict true [(exTask, exEnvFull)] :=
    mem_predict_exEnvFull
  exact ⟨hm, (predict_result_order true [(exTask, exEnvFull)] exPredFull
    hm).2.1⟩

/-- C4: an exception raised out of one task's pipeline (caught by the
outer per-task handler) causes exactly that task to be skipped: the
batch output equals the output for the batch with that task removed. -/
theorem predict_isolates_failing_task (c : Bool)
    (l₁ l₂ : List (Task × TaskEnv)) (t : Task) (e : TaskEnv)
    (u msg : String) (hu : truthyAudioUrl t = some u)
    (he : runTask c e = .error msg) :
    predict c (l₁ ++ (t, e) :: l₂) = predict c (l₁ ++ l₂) := by
  have hskip : processTask c (t, e) = none := by
    simp [processTask, hu, he]
  exact predict_erase_skipped hskip l₁ l₂

/-- Witness for C4: a failing resolver in the middle of a batch of
three leaves the other two tasks' output untouched. -/
theorem predict_isolates_failing_task_witness :
    predict true [(exTask, exEnvFull), (exTask, exEnvResolveFail),
      (exTask, exEnvDegraded)] =
    predict true [(exTask, exEnvFull), (exTask, exEnvDegraded)] :=
  predict_isolates_failing_task true [(exTask, exEnvFull)]
    [(exTask, exEnvDegraded)] exTask exEnvResolveFail "http://x/a.wav"
    "404 not found" (by decide) rfl

/-- C5: the output has at most one prediction per input task, and the
emitted predictions appear in the order of their source tasks — the
output (wrapped in `some`) is a subsequence of the per-task outcome
list. -/
theorem predict_length_le_and_order_preserved (c : Bool)
    (l : List (Task × TaskEnv)) :
    (predict c l).length ≤ l.length ∧
    List.Sublist ((predict c l).map some) (l.map (processTask c)) := by
  induction l with
  | nil => simp [predict]
  | cons te rest ih =>
      rw [predict]
      rcases h2 : processTask c te with _ | q <;>
        simp only [List.map_cons, h2, List.length_cons]
      · exact ⟨Nat.le_succ_of_le ih.1, List.Sublist.cons _ ih.2⟩
      · exact ⟨Nat.succ_le_succ ih.1, List.Sublist.cons₂ _ ih.2⟩

/-- C6: an emitted prediction's top-level score is exactly the
transcription stage's score — 0 when no client is configured, 0 when
the provider call raised, the stubbed 99/100 when it succeeded — and
depends on nothing else in the environment (tempo and metadata outputs
never change it). -/
theorem prediction_score_eq_transcript (c : Bool) (e : TaskEnv)
    (p : Prediction) (h : runTask c e = .ok p) :
    p.score = (if c then
        match e.transcribe with
        | .ok _ => (99 : ℚ)/100
        | .exn _ => 0
      else 0) := by
  rcases hr : e.resolve with path | m
  · simp [runTask, hr] at h
    subst h
    rcases ht : e.transcribe with t | m2 <;> cases c <;>
      simp [assemble, transcriptStage, ht]
  · simp [runTask, hr] at h

/-- Witness for C6: the full-stage run's prediction carries the stubbed
transcription score. -/
theorem prediction_score_eq_transcript_witness :
    exPredFull.score = 99/100 := by
  have h := prediction_score_eq_transcript true exEnvFull exPredFull
    runTask_exEnvFull_eval
  simpa [exEnvFull] using h

/-- C7: when the provider call raises, the exception does not
propagate: the task still yields a prediction whose transcript text
embeds the error description with score 0, and the tempo and metadata
stages still run and contribute their items. -/
theorem provider_failure_degrades (e : TaskEnv) (msg path : String)
    (h1 : e.resolve = .ok path) (h2 : e.transcribe = .exn msg) :
    runTask true e = Except.ok (assemble
      ("[Transcription error: " ++ msg ++ "]", 0) (tempoStage e)
      (metadataStage e)) ∧
    ∀ p, runTask true e = Except.ok p →
      p.score = 0 ∧
      p.result.head? = some (transcriptItem
        ("[Transcription error: " ++ msg ++ "]")) ∧
      p.result.tail =
        tempoItems (tempoStage e) ++ metaItems (metadataStage e) := by
  have hrun : runTask true e = Except.ok (assemble
      ("[Transcription error: " ++ msg ++ "]", 0) (tempoStage e)
      (metadataStage e)) := by
    simp [runTask, h1, transcriptStage, h2]
  refine ⟨hrun, ?_⟩
  intro p hp
  rw [hrun] at hp
  obtain rfl := Except.ok.inj hp
  exact ⟨rfl, rfl, rfl⟩

/-- Witness for C7: a timed-out provider call still yields a prediction
with the embedded error text, zero score, and the tempo items. -/
theorem provider_failure_degrades_witness :
    exPredProviderFail.score = 0 ∧
    exPredProviderFail.result.head? = some (transcriptItem
      "[Transcription error: timeout]") := by
  have heval : runTask true exEnvProviderFail =
      Except.ok exPredProviderFail := by
    have h130 : round2 130 = 130 := by
      have := round2_intCast 130
      norm_num at this
      simpa using this
    have hcat : bpm_category 130 = "fast" := by norm_num [bpm_category]
    simp [runTask, exEnvProviderFail, exPredProviderFail, assemble,
      transcriptStage, tempoStage, metadataStage, tempoItems, metaItems,
      textMetaItem, durationItem, transcriptItem, MetaFields.empty,
      h130, hcat]
  have h := (provider_failure_degrades exEnvProviderFail "timeout"
    "/tmp/c.wav" rfl rfl).2 exPredProviderFail heval
  exact ⟨h.1, h.2.1⟩

/-- C8: a task whose data mapping lacks an audio field is skipped
silently — it contributes no prediction and raises nothing, leaving the
rest of the batch output unchanged. -/
theorem predict_skips_missing_audio (c : Bool)
    (l₁ l₂ : List (Task × TaskEnv)) (t : Task) (e : TaskEnv)
    (h : audioUrl t = none) :
    predict c (l₁ ++ (t, e) :: l₂) = predict c (l₁ ++ l₂) := by
  have hskip : processTask c (t, e) = none := by
    simp [processTask, truthyAudioUrl, h]
  exact predict_erase_skipped hskip l₁ l₂

/-- Witness for C8: a task with no audio key in front of a well-formed
task leaves that task's output as the whole result. -/
theorem predict_skips_missing_audio_witness :
    predict false [(exTaskNoAudio, exEnvFull), (exTask, exEnvDegraded)] =
      predict false [(exTask, exEnvDegraded)] :=
  predict_skips_missing_audio false [] [(exTask, exEnvDegraded)]
    exTaskNoAudio exEnvFull rfl

/-- C10: a task whose audio field holds the falsy empty string is
skipped exactly as if the field were absent: no prediction, no
resolution attempt (the environment is arbitrary and unused), and the
output equals both the batch without the task and the batch with the
field removed. -/
theorem predict_skips_falsy_audio (c : Bool)
    (l₁ l₂ : List (Task × TaskEnv)) (d : TaskData) (e : TaskEnv)
    (h : d.audio = some "") :
    predict c (l₁ ++ ({ data := some d }, e) :: l₂) =
      predict c (l₁ ++ l₂) ∧
    predict c (l₁ ++ ({ data := some d }, e) :: l₂) =
      predict c (l₁ ++ ({ data := some ⟨none⟩ }, e) :: l₂) := by
  have hskip : processTask c ({ data := some d }, e) = none := by
    simp [processTask, truthyAudioUrl, audioUrl, h]
  have habsent :
      processTask c ({ data := some ⟨none⟩ }, e) = none := by
    simp [processTask, truthyAudioUrl, audioUrl]
  constructor
  · exact predict_erase_skipped hskip l₁ l₂
  · rw [predict_erase_skipped hskip l₁ l₂,
      predict_erase_skipped habsent l₁ l₂]

/-- Witness for C10: the empty-string audio task contributes nothing,
even with a raising resolver in its environment. -/
theorem predict_skips_falsy_audio_witness :
    predict true [(exTaskEmptyAudio, exEnvResolveFail)] =
      predict true [] :=
  (predict_skips_falsy_audio true [] [] { audio := some "" }
    exEnvResolveFail rfl).1

/-- Helper for C9: a task iteration's filesystem trace only ever
contains resolution events. -/
theorem taskEvents_only_resolved {te : Task × TaskEnv} {ev : FsEvent}
    (h : ev ∈ taskEvents te) : ∃ q, ev = FsEvent.resolved q := by
  unfold taskEvents at h
  split at h
  · simp at h
  · split at h
    · simp at h
      exact ⟨_, h⟩
    · simp at h

/-- C9 counterexample: a concrete task whose stages all complete
resolves its audio to a local file, and the run's filesystem trace
contains no deletion of that file — the claim that the temporary file
is deleted once the task's stages complete is false on the code, which
performs no deletion at all. -/
theorem temp_file_never_deleted_counterexample :
    predictEvents [(exTask, exEnvFull)] =
      [FsEvent.resolved "/tmp/b.wav"] ∧
    FsEvent.deleted "/tmp/b.wav" ∉ predictEvents [(exTask, exEnvFull)] := by
  exact ⟨rfl, by decide⟩

/-- C9 (amended): `predict` never deletes any local audio file, on
success or failure paths — the resolved files outlive the task's
processing and cleanup is left to the resolver's cache. -/
theorem predict_never_deletes_files (l : List (Task × TaskEnv))
    (p : String) : FsEvent.deleted p ∉ predictEvents l := by
  induction l with
  | nil => simp [predictEvents]
  | cons te rest ih =>
      intro hmem
      rw [show predictEvents (te :: rest) =
        taskEvents te ++ predictEvents rest from rfl] at hmem
      rcases List.mem_append.mp hmem with h | h
      · obtain ⟨q, hq⟩ := taskEvents_only_resolved h
        exact FsEvent.noConfusion hq
      · exact ih h

/-- Witness for C9 (amended): the concrete successful run deletes
nothing. -/
theorem predict_never_deletes_files_witness :
    FsEvent.deleted "/tmp/a.wav" ∉ predictEvents [(exTask, exEnvDegraded)] :=
  predict_never_deletes_files [(exTask, exEnvDegraded)] "/tmp/a.wav"

/-- C1 counterexample: in degraded mode (no client configured) the
single-item prediction carries the text "[OpenAI not configured —
transcription unavailable]", not the placeholder the claim states, so
the claimed output is not produced. -/
theorem degraded_placeholder_counterexample :
    predict false [(exTask, exEnvDegraded)] ≠
      [⟨[⟨RIValue.text ["<transcription unavailable>"],
          "transcription", "audio", "textarea"⟩], 0⟩] := by
  decide

/-- C1 (amended): for every task with a resolvable audio reference,
when no client is configured and the tempo and metadata capabilities
are unavailable, `predict` emits exactly one prediction holding exactly
one result item — the transcription textarea item with the fixed
placeholder text "[OpenAI not configured — transcription unavailable]"
— and score 0; the provider outcome in the environment is arbitrary and
unused, so no network call is consulted. -/
theorem degraded_mode_single_item (t : Task) (d : TaskData)
    (u path : String) (e : TaskEnv) (h1 : t.data = some d)
    (h2 : d.audio = some u) (h3 : u ≠ "") (h4 : e.resolve = .ok path)
    (h5 : e.librosaAvailable = false) (h6 : e.mutagenAvailable = false) :
    predict false [(t, e)] =
      [⟨[⟨RIValue.text
          ["[OpenAI not configured — transcription unavailable]"],
          "transcription", "audio", "textarea"⟩], 0⟩] := by
  simp [predict, processTask, truthyAudioUrl, audioUrl, h1, h2, h3,
    runTask, h4, assemble, transcriptStage, tempoStage, h5,
    metadataStage, h6, tempoItems, metaItems, textMetaItem,
    durationItem, MetaFields.empty, transcriptItem]

/-- Witness for C1 (amended): the concrete degraded run produces
exactly the placeholder prediction. -/
theorem degraded_mode_single_item_witness :
    predict false [(exTask, exEnvDegraded)] =
      [⟨[⟨RIValue.text
          ["[OpenAI not configured — transcription unavailable]"],
          "transcription", "audio", "textarea"⟩], 0⟩] :=
  degraded_mode_single_item exTask { audio := some "http://x/a.wav" }
    "http://x/a.wav" "/tmp/a.wav" exEnvDegraded rfl rfl (by decide)
    rfl rfl rfl

end Whisper
